import Mathlib

/-!
Verification development for the clustering-outliers-service repository.

The development shallowly embeds the two source files of the repository:

* `clustering_outliers/utils.py` — file staging helpers: `get_subdirectories`,
  `get_extracted_path`, `uncompress_file` (with its inline `is_within_directory`
  and `safe_extract` guards), plus the POSIX path primitives they rely on
  (`os.path.join`, `os.path.dirname`, `os.path.abspath`/`normpath`,
  `os.path.commonprefix`).
* `clustering_outliers/app.py` — the job-ticketing workflow: `enqueue` (the
  deferred job body), `executor_callback` (the completion handler), the
  `status`, `resource` and `health_check` views, and the `k_means_file` /
  `k_means_path` request handlers.

Pure functions are translated directly; effectful code (SQLite statements,
file writes, job submission) is embedded as explicit data: a handler or job
returns the list of database operations it performs and the list of file
paths it writes, and the single-table store is an association list of rows.
Python exceptions are `Except` errors carrying the exception text.
-/

namespace ClusteringOutliers

/-! ## POSIX path primitives (semantics of `os.path` as used by the source) -/

/-- Tests whether a string starts with the given character (kernel-reducible
replacement for `String.startsWith` on one-character patterns). -/
def startsWithChar (c : Char) (s : String) : Bool :=
  match s.toList with
  | [] => false
  | x :: _ => x = c

/-- Tests whether a string ends with the given character. -/
def endsWithChar (c : Char) (s : String) : Bool :=
  match s.toList.getLast? with
  | none => false
  | some x => x = c

/-- Helper for `splitOnSlash`; the current component is accumulated in
reverse. -/
def splitOnSlashAux : List Char → List Char → List String
  | [], cur => [String.mk cur.reverse]
  | x :: rest, cur =>
      if x = '/' then String.mk cur.reverse :: splitOnSlashAux rest []
      else splitOnSlashAux rest (x :: cur)

/-- Splits a string on "/" exactly as Python's `str.split('/')` does
(the empty string yields one empty component). -/
def splitOnSlash (s : String) : List String :=
  splitOnSlashAux s.toList []

/-- Joins components with "/" (Python's `'/'.join(...)`). -/
def joinWithSlash : List String → String
  | [] => ""
  | [s] => s
  | s :: rest => s ++ "/" ++ joinWithSlash rest

/-- Embeds `os.path.join(a, b)` (posixpath): an absolute second argument
discards the first; otherwise the parts are joined with a single slash. -/
def pathJoin (a b : String) : String :=
  if startsWithChar '/' b then b
  else if a = "" || endsWithChar '/' a then a ++ b
  else a ++ "/" ++ b

/-- Embeds `os.path.dirname(p)` (posixpath): everything before the final
slash, with a fully-slash prefix collapsing to "/" as in CPython. -/
def dirname (p : String) : String :=
  let chars := p.toList
  match (chars.reverse.findIdx? (· = '/')) with
  | none => ""
  | some iRev =>
      let cut := chars.length - 1 - iRev
      let head := chars.take cut
      if head.all (· = '/') then String.mk (chars.take (cut + 1))
      else String.mk head

/-- Embeds one step of `posixpath.normpath`'s component loop. The
accumulator is kept reversed. A ".." pops a normal component, is dropped at
the root of an absolute path, and is kept for a relative path. -/
def normStep (isAbs : Bool) (acc : List String) (c : String) : List String :=
  if c = "" || c = "." then acc
  else if c = ".." then
    match acc with
    | [] => if isAbs then [] else [".."]
    | a :: rest => if a = ".." then c :: a :: rest else rest
  else c :: acc

/-- Embeds `posixpath.normpath(p)` (single leading slash; the POSIX
double-slash special case does not arise in this repository's paths). -/
def normPath (p : String) : String :=
  if p = "" then "." else
  let isAbs := startsWithChar '/' p
  let comps := ((splitOnSlash p).foldl (normStep isAbs) []).reverse
  let body := joinWithSlash comps
  if isAbs then "/" ++ body
  else if body = "" then "." else body

/-- Embeds `os.path.abspath(p)`: join onto the working directory, then
normalize (joining is a no-op when `p` is already absolute). -/
def absPath (cwd p : String) : String :=
  normPath (pathJoin cwd p)

/-- Longest common character prefix of two character lists. -/
def commonPrefixChars : List Char → List Char → List Char
  | x :: xs, y :: ys => if x = y then x :: commonPrefixChars xs ys else []
  | _, _ => []

/-- Embeds `os.path.commonprefix([a, b])`: the longest common *string*
prefix (character-wise, not component-wise). -/
def commonPrefixOf (a b : String) : String :=
  String.mk (commonPrefixChars a.toList b.toList)

/-! ## utils.py — `is_within_directory`, directory unwrapping, `uncompress_file` -/

/-- Embeds the `is_within_directory(directory, target)` helper defined
inside `uncompress_file`: both paths are made absolute against the working
directory and the target must have the absolute directory as a character
prefix (`os.path.commonprefix` comparison, exactly as in the source). -/
def is_within_directory (cwd directory target : String) : Bool :=
  let abs_directory := absPath cwd directory
  let abs_target := absPath cwd target
  commonPrefixOf abs_directory abs_target == abs_directory

/-- Directory-tree snapshot: a node is a plain file or a directory holding
named entries in `os.scandir` order. -/
inductive FSNode where
  | file : FSNode
  | dir (entries : List (String × FSNode)) : FSNode
deriving Repr

/-- Embeds `DirEntry.is_dir()`. -/
def FSNode.isDir : FSNode → Bool
  | .file => false
  | .dir _ => true

/-- Filter used by `get_subdirectories`: the entry is a directory and its
name does not start with ".". -/
def visibleDirEntry (p : String × FSNode) : Bool :=
  !startsWithChar '.' p.1 && p.2.isDir

/-- Embeds `get_subdirectories(folder_path)`: the names of the entries that
are directories and are not hidden (name starting with "."), in scan
order. -/
def get_subdirectories (entries : List (String × FSNode)) : List String :=
  entries.filterMap (fun p => if visibleDirEntry p then some p.1 else none)

/-- The first visible (non-hidden) directory entry, paired with its
subtree; its name is `get_subdirectories(...)[0]` (see
`firstVisibleDir_name`). -/
def firstVisibleDir (entries : List (String × FSNode)) : Option (String × FSNode) :=
  entries.find? visibleDirEntry

theorem firstVisibleDir_name (entries : List (String × FSNode)) :
    (firstVisibleDir entries).map Prod.fst = (get_subdirectories entries).head? := by
  induction entries with
  | nil => rfl
  | cons e rest ih =>
      cases h : visibleDirEntry e
      · simp only [firstVisibleDir, get_subdirectories, List.find?_cons, List.filterMap_cons, h,
          if_neg Bool.false_ne_true]
        simpa [firstVisibleDir, get_subdirectories] using ih
      · simp [firstVisibleDir, get_subdirectories, List.find?_cons, List.filterMap_cons, h]

theorem sizeOf_lt_of_firstVisibleDir {entries : List (String × FSNode)}
    {d : String} {sub : FSNode} (h : firstVisibleDir entries = some (d, sub)) :
    sizeOf sub < sizeOf (FSNode.dir entries) := by
  have hmem : (d, sub) ∈ entries := List.mem_of_find?_eq_some h
  have hlt : sizeOf (d, sub) < sizeOf entries := List.sizeOf_lt_of_mem hmem
  simp only [Prod.mk.sizeOf_spec] at hlt
  simp only [FSNode.dir.sizeOf_spec]
  omega

/-- Embeds `get_extracted_path(folder_path)`: if the directory has no
visible subdirectory the path is returned; otherwise the function recurses
into the first visible subdirectory (`subdirectories[0]`), regardless of
any sibling files. The source only ever calls it on directories; a plain
file returns its own path. -/
def get_extracted_path (folder_path : String) (n : FSNode) : String :=
  match n with
  | .file => folder_path
  | .dir entries =>
      match h : firstVisibleDir entries with
      | none => folder_path
      | some (d, sub) => get_extracted_path (pathJoin folder_path d) sub
termination_by sizeOf n
decreasing_by
  exact sizeOf_lt_of_firstVisibleDir h

theorem get_extracted_path_file (p : String) :
    get_extracted_path p FSNode.file = p := by
  simp [get_extracted_path]

theorem get_extracted_path_stop {entries : List (String × FSNode)} (p : String)
    (h : firstVisibleDir entries = none) :
    get_extracted_path p (FSNode.dir entries) = p := by
  rw [get_extracted_path, h]

theorem get_extracted_path_step {entries : List (String × FSNode)} (p : String)
    {d : String} {sub : FSNode} (h : firstVisibleDir entries = some (d, sub)) :
    get_extracted_path p (FSNode.dir entries) = get_extracted_path (pathJoin p d) sub := by
  rw [get_extracted_path, h]

/-- Kind of the path handed to `uncompress_file`, as the source's guards
classify it: `path.isdir`, then `tarfile.is_tarfile`, then
`zipfile.is_zipfile`; `missing` is a path that does not exist (the
`is_tarfile` probe then raises `FileNotFoundError`). An archive carries its
member names. -/
inductive SrcKind where
  | directory
  | tarArchive (members : List String)
  | zipArchive (members : List String)
  | plainFile
  | missing
deriving Repr

/-- Outcome of `uncompress_file`: a returned path, a Flask `abort` with an
HTTP status code, or an uncaught Python exception propagating to the
caller. -/
inductive UncompressOutcome where
  | path (p : String)
  | clientError (code : Nat) (msg : String)
  | raised (msg : String)
deriving Repr, DecidableEq

/-- Result of running `uncompress_file`: its outcome together with every
filesystem path the extraction wrote. -/
structure UncompressRun where
  outcome : UncompressOutcome
  writes : List String
deriving Repr, DecidableEq

/-- Member-name sanitization performed by CPython's
`zipfile.ZipFile.extractall` (via `_extract_member`): path components that
are empty, "." or ".." are removed, so a zip member can never escape the
target directory — but no error is raised either. -/
def sanitizeZipName (name : String) : String :=
  joinWithSlash ((splitOnSlash name).filter
    (fun c => c != "" && c != "." && c != ".."))

/-- Embeds `uncompress_file(src_file)`. `cwd` is the process working
directory (used by `os.path.abspath`); `tree` is the contents of
`dirname(src_file)` after extraction, consumed by `get_extracted_path`.
Control flow follows the source: a directory falls through to
`return src_file`; a tar archive is checked member-by-member with
`is_within_directory` and the inline `safe_extract` raises
"Attempted Path Traversal in Tar File" before anything is extracted if any
member fails the check; a zip archive is extracted by
`ZipFile.extractall` with no guard; any other existing file falls through
to `return src_file`; a missing file raises `FileNotFoundError` inside the
`try`, which the handler converts to `abort(400, 'File not found')`. -/
def uncompress_file (src_file : String) (kind : SrcKind) (cwd : String)
    (tree : FSNode) : UncompressRun :=
  match kind with
  | .directory => ⟨.path src_file, []⟩
  | .plainFile => ⟨.path src_file, []⟩
  | .missing => ⟨.clientError 400 "File not found", []⟩
  | .tarArchive members =>
      let src_path := dirname src_file
      if members.all (fun m => is_within_directory cwd src_path (pathJoin src_path m)) then
        ⟨.path (get_extracted_path src_path tree), members.map (fun m => pathJoin src_path m)⟩
      else
        ⟨.raised "Attempted Path Traversal in Tar File", []⟩
  | .zipArchive members =>
      let src_path := dirname src_file
      ⟨.path (get_extracted_path src_path tree),
       members.map (fun m => pathJoin src_path (sanitizeZipName m))⟩

/-! ## app.py — ticket store, job body, completion handler -/

/-- Embeds the `JobType` enum of app.py. -/
inductive JobType where
  | KMEANS
  | DBSCAN
  | AGGLO
  | ISOFOREST
  | LOCALOUTLIER
  | SVM
deriving Repr, DecidableEq

/-- Python value as it flows through the job's return tuple: `None`, an
int, a string, the JSON-serializable result payload of a delegated
algorithm (kept opaque as a string), or a `JobType` member. -/
inductive PyVal where
  | none
  | int (n : Nat)
  | str (s : String)
  | obj (payload : String)
  | job (j : JobType)
deriving Repr, DecidableEq

/-- Row of the `tickets` table, keyed externally by the ticket string.

Modelled from the spec: `db.py` (the table schema) is not under `src/`;
per spec section 3, `requested_time` is set at creation, `filesize` at
creation, `status` defaults to pending (0), and `success`, `result`,
`execution_time`, `comment` are unset (NULL) until completion. Timestamps
are seconds as natural numbers. -/
structure TicketRow where
  requested_time : Nat
  filesize : Nat
  status : Nat
  success : Option Nat
  result : Option String
  execution_time : Option Int
  comment : Option String
deriving Repr, DecidableEq

/-- Row created by `INSERT INTO tickets (ticket, filesize) VALUES(?, ?)`;
every other column takes its schema default (see `TicketRow`). -/
def newRow (filesize now : Nat) : TicketRow :=
  { requested_time := now, filesize := filesize, status := 0,
    success := Option.none, result := Option.none,
    execution_time := Option.none, comment := Option.none }

/-- Database statement executed against the `tickets` table. `insert` is
the INSERT of `enqueue` (with the insertion clock reading); `update` is the
single UPDATE of `executor_callback`, which also sets `status=1`. -/
inductive DbOp where
  | insert (ticket : String) (filesize : Nat) (now : Nat)
  | update (ticket : String) (result : Option String) (success : Option Nat)
      (execution_time : Int) (comment : Option String)
deriving Repr, DecidableEq

/-- The single-table store: an association list from ticket to row, newest
first. -/
abbrev Store := List (String × TicketRow)

/-- Embeds `SELECT ... FROM tickets WHERE ticket = ?` + `fetchone()`. -/
def fetchRow (s : Store) (t : String) : Option TicketRow :=
  (List.find? (fun p => p.1 == t) s).map Prod.snd

/-- Effect of the callback's UPDATE on one row: sets `result`, `success`,
`status=1`, `execution_time` and `comment`, exactly as the SQL in
`executor_callback` does. -/
def updateRow (r : TicketRow) (res : Option String) (succ : Option Nat)
    (et : Int) (com : Option String) : TicketRow :=
  { requested_time := r.requested_time, filesize := r.filesize, status := 1,
    success := succ, result := res, execution_time := some et, comment := com }

/-- Applies one statement to the store. -/
def applyOp (s : Store) : DbOp → Store
  | .insert t fs now => (t, newRow fs now) :: s
  | .update t res succ et com =>
      s.map (fun p => if p.1 == t then (p.1, updateRow p.2 res succ et com) else p)

/-- Applies a list of statements in order. -/
def applyOps (ops : List DbOp) (s : Store) : Store :=
  ops.foldl applyOp s

/-- Embeds `enqueue(ticket, src_path, form, job_type)`, the deferred job
body. It first INSERTs the ticket row, then dispatches on the job type to
the delegated algorithm; the outcome of that delegated call is the
parameter `comp` (the six algorithms are external collaborators). The
returned pair is (database statements run by the job, the Python tuple the
job returns). On an exception the source returns the 4-element tuple
`(ticket, None, 0, str(e))`; on success the 5-element tuple
`(ticket, result, job_type, 1, None)`. -/
def enqueue (ticket : String) (filesize now : Nat) (jt : JobType)
    (comp : Except String String) : List DbOp × List PyVal :=
  ([DbOp.insert ticket filesize now],
   match comp with
   | .error e => [PyVal.str ticket, PyVal.none, PyVal.int 0, PyVal.str e]
   | .ok r => [PyVal.str ticket, PyVal.obj r, PyVal.job jt, PyVal.int 1, PyVal.none])

/-- Embeds the tuple unpacking
`ticket, result, job_type, success, comment = future.result()` in
`executor_callback`: anything but a 5-element tuple raises `ValueError`.
The first element is matched as a string because every tuple `enqueue`
produces starts with the ticket string. -/
def unpackFive (l : List PyVal) :
    Except String (String × PyVal × PyVal × PyVal × PyVal) :=
  match l with
  | [PyVal.str ticket, result, jt, success, comment] =>
      Except.ok (ticket, result, jt, success, comment)
  | _ => Except.error "ValueError: not enough values to unpack (expected 5)"

/-- Marshals a Python value into a nullable SQLite integer column. -/
def pyOptNat : PyVal → Option Nat
  | .int n => some n
  | _ => Option.none

/-- Marshals a Python value into a nullable SQLite text column. -/
def pyOptStr : PyVal → Option String
  | .str s => some s
  | _ => Option.none

/-- File writes and database statements performed by one run of the
completion handler. -/
structure CallbackRun where
  fileWrites : List String
  dbOps : List DbOp
deriving Repr, DecidableEq

/-- Embeds `executor_callback(future)`. `outDir` is `OUTPUT_DIR`, `dateStr`
is `datetime.now().strftime("%y%m%d")`, and `nowUtc` is the completion
clock reading in seconds (the source rounds a float of seconds to three
decimals; integer seconds keep the sign and the elapsed-time arithmetic).
If the result is not `None` the payload is dumped to
`OUTPUT_DIR/<date>/<ticket>/result.json` and that full path is stored in
the `result` column; the row is then read for `requested_time`, the
elapsed time computed, and the single UPDATE issued. A tuple of the wrong
arity raises `ValueError` at the unpacking; a missing row raises
`TypeError` when `fetchone()`'s `None` is subscripted. -/
def executor_callback (tup : List PyVal) (store : Store)
    (outDir dateStr : String) (nowUtc : Nat) : Except String CallbackRun :=
  match unpackFive tup with
  | .error e => .error e
  | .ok (ticket, result, _jt, success, comment) =>
      let rel_path := pathJoin dateStr ticket
      let filepath : Option String :=
        match result with
        | PyVal.none => Option.none
        | _ => some (pathJoin (pathJoin outDir rel_path) "result.json")
      match fetchRow store ticket with
      | Option.none => .error "TypeError: NoneType is not subscriptable"
      | some row =>
          let execution_time : Int := (nowUtc : Int) - (row.requested_time : Int)
          .ok { fileWrites := filepath.toList,
                dbOps := [DbOp.update ticket filepath (pyOptNat success)
                            execution_time (pyOptStr comment)] }

/-! ## app.py — status, resource and health views -/

/-- Response of the `/status/<ticket>` view: a missing path parameter is a
400, an unknown ticket a 404, and a known ticket a 200 whose JSON body has
the five fields `completed`, `success`, `requested`,
`execution_time(s)` and `comment`. -/
inductive StatusResp where
  | missingTicket
  | notFound
  | body (completed : Bool) (success : Option Bool) (requested : Nat)
      (execution_time : Option Int) (comment : Option String)
deriving Repr, DecidableEq

/-- Embeds the `status(ticket)` view: `bool(results['status'])` is
`status != 0`, `success` is converted with `bool(...)` only when the column
is not NULL, and the remaining three columns are echoed. -/
def status (ticket : Option String) (s : Store) : StatusResp :=
  match ticket with
  | Option.none => .missingTicket
  | some t =>
      match fetchRow s t with
      | Option.none => .notFound
      | some r =>
          .body (r.status != 0) (r.success.map (fun n => n != 0))
            r.requested_time r.execution_time r.comment

/-- Response of the `/resource/<ticket>` view: 400 for a missing path
parameter, 404 when the `result` column is NULL, 507 when the recorded
artifact file is absent, 200 with the file stream otherwise. -/
inductive ResourceResp where
  | missingTicket
  | notFound
  | resourceMissing
  | fileStream (p : String)
deriving Repr, DecidableEq

/-- Embeds the `resource(ticket)` view. The source subscripts
`fetchone()['result']` without checking for an absent row, so an unknown
ticket raises `TypeError` (an uncaught server error) instead of returning
404; this is represented by the `Except.error` branch. `isfile` is the
`path.isfile` oracle for the artifact store. -/
def resource (ticket : Option String) (s : Store) (isfile : String → Bool)
    (outDir : String) : Except String ResourceResp :=
  match ticket with
  | Option.none => .ok .missingTicket
  | some t =>
      match fetchRow s t with
      | Option.none => .error "TypeError: NoneType is not subscriptable"
      | some row =>
          match row.result with
          | Option.none => .ok .notFound
          | some rel_path =>
              let file := pathJoin outDir rel_path
              if isfile file then .ok (.fileStream file) else .ok .resourceMissing

/-- Body of the `/_health` response. -/
structure HealthBody where
  status : String
  reason : Option String
  detail : Option String
deriving Repr, DecidableEq

/-- Embeds the `health_check()` view: the temp-directory writability probe
and the store connectivity probe each either succeed or raise (carrying the
exception text); every branch answers HTTP 200. -/
def health_check (tempCheck : Except String Unit) (dbCheck : Except String Unit) :
    Nat × HealthBody :=
  match tempCheck with
  | .error e => (200, ⟨"FAILED", some "temp directory not writable", some e⟩)
  | .ok _ =>
      match dbCheck with
      | .error e => (200, ⟨"FAILED", some "cannot connect to SQLite backend", some e⟩)
      | .ok _ => (200, ⟨"OK", Option.none, Option.none⟩)

/-! ## app.py — request handlers and the deferred-request trace -/

/-- Job submission handed to the executor by `enqueue.submit(...)`. -/
structure Submission where
  ticket : String
  srcPath : String
  jobType : JobType
deriving Repr, DecidableEq

/-- Response body of a request handler: the JSON result of a prompt run,
or the key-value object of a deferred acceptance. -/
inductive Body where
  | blob (result : String)
  | kv (pairs : List (String × String))
deriving Repr, DecidableEq

/-- Response of a request handler: a Flask `abort` or a JSON response. -/
inductive KResp where
  | abort (code : Nat) (msg : String)
  | ok (code : Nat) (body : Body)
deriving Repr, DecidableEq

/-- Body `{"ticket": ..., "endpoint": ..., "status": ...}` returned with
HTTP 202 by every deferred-mode handler. -/
def deferredBody (ticket : String) : List (String × String) :=
  [("ticket", ticket), ("endpoint", "/resource/" ++ ticket),
   ("status", "/status/" ++ ticket)]

/-- Form state of the `/kmeans/file` handler that the control flow reads:
whether `validate_on_submit` passed and the `response` field. -/
structure FileForm where
  valid : Bool
  response : String
deriving Repr, DecidableEq

/-- Form state of the `/kmeans/path` handler: additionally the
server-local `resource` path. -/
structure PathForm where
  valid : Bool
  resource : String
  response : String
deriving Repr, DecidableEq

/-- Embeds the `k_means_file()` handler. `ticket` is the fresh token from
`create_ticket()`, `stagedPath` the path produced by
`save_to_temp` + `uncompress_file` (staging is modelled separately by
`uncompress_file`), and `kmeams` the delegated algorithm on the staged
path. Returns the response and the job submissions; the handler itself
runs no database statement. -/
def k_means_file (form : FileForm) (ticket stagedPath : String)
    (kmeams : String → String) : KResp × List Submission :=
  if !form.valid then (KResp.abort 400 "form errors", [])
  else if form.response == "prompt" then
    (KResp.ok 200 (Body.blob (kmeams stagedPath)), [])
  else
    (KResp.ok 202 (Body.kv (deferredBody ticket)),
     [{ ticket := ticket, srcPath := stagedPath, jobType := JobType.KMEANS }])

/-- Embeds the `k_means_path()` handler: validate, uncompress the given
path (`uncompressed` is the path `uncompress_file` returns on its success
branch), reject a non-existent path with 400, then run promptly or defer.
`freshTicket` is the `create_ticket()` token drawn in the deferred
branch. -/
def k_means_path (form : PathForm) (uncompressed : String → String)
    (pathExists : String → Bool) (freshTicket : String)
    (kmeams : String → String) : KResp × List Submission :=
  if !form.valid then (KResp.abort 400 "form errors", [])
  else
    let src := uncompressed form.resource
    if !pathExists src then (KResp.abort 400 "File not found", [])
    else if form.response == "prompt" then
      (KResp.ok 200 (Body.blob (kmeams src)), [])
    else
      (KResp.ok 202 (Body.kv (deferredBody freshTicket)),
       [{ ticket := freshTicket, srcPath := src, jobType := JobType.KMEANS }])

/-- Database statements produced by running one submitted job to
completion: the job body `enqueue` runs first (its INSERT applied to the
store), then `executor_callback` fires on the returned tuple. If the
callback raises, its statements are lost and only the job's own
statements remain. -/
def runJob (sub : Submission) (filesize reqTime : Nat)
    (comp : Except String String) (outDir dateStr : String) (nowUtc : Nat)
    (store : Store) : List DbOp :=
  let run := enqueue sub.ticket filesize reqTime sub.jobType comp
  match executor_callback run.2 (applyOps run.1 store) outDir dateStr nowUtc with
  | .error _ => run.1
  | .ok cb => run.1 ++ cb.dbOps

/-- Every database statement a `/kmeans/file` request causes, end to end:
the handler itself runs none, and each submission it makes is run to
completion against an initially empty store. -/
def k_means_file_trace (form : FileForm) (ticket stagedPath : String)
    (kmeams : String → String) (filesize reqTime : Nat)
    (comp : Except String String) (outDir dateStr : String) (nowUtc : Nat) :
    List DbOp :=
  (k_means_file form ticket stagedPath kmeams).2.foldl
    (fun acc sub => acc ++ runJob sub filesize reqTime comp outDir dateStr nowUtc [])
    []

/-! ## Auxiliary notions for the claims -/

/-- The single subdirectory of a directory listing when, as the spec words
it, the listing consists of exactly one subdirectory and no sibling
files; `none` otherwise. -/
def singleSubdir (entries : List (String × FSNode)) : Option (String × FSNode) :=
  match entries.filter (fun p => p.2.isDir), entries.any (fun p => !p.2.isDir) with
  | [d], false => some d
  | _, _ => Option.none

theorem sizeOf_lt_of_singleSubdir {entries : List (String × FSNode)}
    {d : String} {sub : FSNode} (h : singleSubdir entries = some (d, sub)) :
    sizeOf sub < sizeOf (FSNode.dir entries) := by
  unfold singleSubdir at h
  split at h
  · rename_i heq _
    cases h
    have hmemf : (d, sub) ∈ entries.filter (fun p => p.2.isDir) := by
      rw [heq]; exact List.mem_singleton_self _
    have hmem : (d, sub) ∈ entries := List.mem_of_mem_filter hmemf
    have hlt : sizeOf (d, sub) < sizeOf entries := List.sizeOf_lt_of_mem hmem
    simp only [Prod.mk.sizeOf_spec] at hlt
    simp only [FSNode.dir.sizeOf_spec]
    omega
  · cases h

/-- Directory unwrapping as the spec describes it, for comparison with the
source's `get_extracted_path`. Modelled from the spec's words: "if it
contains a single subdirectory and no sibling files it recurses into it,
repeatedly, stopping at a directory that contains actual file(s) or has no
further nesting". -/
def get_extracted_path_spec (p : String) (n : FSNode) : String :=
  match n with
  | .file => p
  | .dir entries =>
      match h : singleSubdir entries with
      | Option.none => p
      | some (d, sub) => get_extracted_path_spec (pathJoin p d) sub
termination_by sizeOf n
decreasing_by
  exact sizeOf_lt_of_singleSubdir h

theorem get_extracted_path_spec_stop {entries : List (String × FSNode)} (p : String)
    (h : singleSubdir entries = Option.none) :
    get_extracted_path_spec p (FSNode.dir entries) = p := by
  rw [get_extracted_path_spec, h]

/-- Nest of wrapper directories: each level is a wrapper name plus the
sibling entries listed after it, and the innermost level holds the leaf
entries. -/
def wrapChain : List (String × List (String × FSNode)) → List (String × FSNode) → FSNode
  | [], leaf => FSNode.dir leaf
  | (d, sibs) :: rest, leaf => FSNode.dir ((d, wrapChain rest leaf) :: sibs)

theorem wrapChain_isDir (levels : List (String × List (String × FSNode)))
    (leaf : List (String × FSNode)) : (wrapChain levels leaf).isDir = true := by
  cases levels with
  | nil => rfl
  | cons l rest => cases l; rfl

/-- Invariant of the tickets table: a row still pending has a NULL
`success` column. -/
def pendingInv (s : Store) : Prop :=
  ∀ p ∈ s, p.2.status = 0 → p.2.success = Option.none

theorem pendingInv_applyOp {s : Store} (op : DbOp) (h : pendingInv s) :
    pendingInv (applyOp s op) := by
  cases op with
  | insert t fs now =>
      intro p hp hst
      rcases List.mem_cons.mp hp with rfl | hmem
      · rfl
      · exact h p hmem hst
  | update t res succ et com =>
      intro p hp hst
      rcases List.mem_map.mp hp with ⟨q, hq, rfl⟩
      by_cases hqt : (q.1 == t) = true
      · simp only [hqt, if_pos] at hst ⊢
        simp [updateRow] at hst
      · simp only [hqt] at hst ⊢
        simp only [Bool.false_eq_true, if_neg] at hst ⊢
        exact h q hq hst

theorem pendingInv_applyOps (ops : List DbOp) {s : Store} (h : pendingInv s) :
    pendingInv (applyOps ops s) := by
  induction ops generalizing s with
  | nil => exact h
  | cons op rest ih => exact ih (pendingInv_applyOp op h)

theorem pendingInv_nil : pendingInv [] := by
  intro p hp
  cases hp

/-! ## Claim theorems -/

/-- C1: when the delegated algorithm raises, `enqueue` catches the
exception and returns a tuple (the worker does not crash) — but that tuple
has four elements where `executor_callback` unpacks five, so the callback
raises `ValueError` and the ticket row is never updated with
status=completed, success=false and the exception text. The claim's
recording step never happens. -/
theorem failed_job_outcome_never_recorded (t : String) (fs now1 : Nat)
    (jt : JobType) (e : String) (store : Store) (outDir dateStr : String)
    (now2 : Nat) :
    (enqueue t fs now1 jt (Except.error e)).2
      = [PyVal.str t, PyVal.none, PyVal.int 0, PyVal.str e]
    ∧ executor_callback (enqueue t fs now1 jt (Except.error e)).2 store outDir dateStr now2
      = Except.error "ValueError: not enough values to unpack (expected 5)" :=
  ⟨rfl, rfl⟩

/-- C2: for a ticket absent from the store, the `resource` view subscripts
the `None` returned by `fetchone()` and raises `TypeError` — an uncaught
server error — instead of answering 404 as the claim (and the view's own
docstring) states. -/
theorem resource_unknown_ticket_raises (t : String) (isfile : String → Bool)
    (outDir : String) :
    resource (some t) ([] : Store) isfile outDir
      = Except.error "TypeError: NoneType is not subscriptable" :=
  rfl

/-- C3 counterexample: a zip archive with the member "../../evil", whose
path joined to the destination "/tmp/work" and normalized escapes that
directory, is extracted without any abort: `uncompress_file` runs
`ZipFile.extractall` (which silently strips the traversal components) and
returns a path. The claim's "aborts with an error" is false for zip
archives. -/
theorem zip_traversal_member_not_aborted :
    is_within_directory "/" "/tmp/work" (pathJoin "/tmp/work" "../../evil") = false
    ∧ (uncompress_file "/tmp/work/a.zip" (SrcKind.zipArchive ["../../evil"]) "/"
        (FSNode.dir [])).outcome = UncompressOutcome.path "/tmp/work"
    ∧ (uncompress_file "/tmp/work/a.zip" (SrcKind.zipArchive ["../../evil"]) "/"
        (FSNode.dir [])).writes = ["/tmp/work/evil"] := by
  refine ⟨by decide, ?_, by decide⟩
  show UncompressOutcome.path (get_extracted_path "/tmp/work" (FSNode.dir [])) = _
  rw [get_extracted_path_stop _ (rfl : firstVisibleDir [] = Option.none)]

/-- C3 as amended: for every tar archive, if any member's path joined to
the destination directory (`dirname src_file`) and normalized is not
prefixed by the normalized destination, `safe_extract` raises
"Attempted Path Traversal in Tar File" and nothing is written. -/
theorem tar_traversal_member_aborts (src_file cwd : String)
    (members : List String) (tree : FSNode)
    (h : members.any (fun m =>
        !is_within_directory cwd (dirname src_file) (pathJoin (dirname src_file) m)) = true) :
    uncompress_file src_file (SrcKind.tarArchive members) cwd tree
      = ⟨UncompressOutcome.raised "Attempted Path Traversal in Tar File", []⟩ := by
  simp only [uncompress_file]
  rw [if_neg]
  intro hall
  rw [List.all_eq_true] at hall
  rw [List.any_eq_true] at h
  obtain ⟨m, hm, hbad⟩ := h
  have hok := hall m hm
  rw [hok] at hbad
  exact absurd hbad (by decide)

/-- C3 witness: the crafted tar entry "../../evil" under destination
"/tmp/work" triggers the abort. -/
theorem tar_traversal_member_aborts_witness :
    (["../../evil"].any (fun m =>
        !is_within_directory "/" (dirname "/tmp/work/a.tar")
          (pathJoin (dirname "/tmp/work/a.tar") m)) = true)
    ∧ uncompress_file "/tmp/work/a.tar" (SrcKind.tarArchive ["../../evil"]) "/" FSNode.file
      = ⟨UncompressOutcome.raised "Attempted Path Traversal in Tar File", []⟩ :=
  ⟨by decide, tar_traversal_member_aborts _ _ _ _ (by decide)⟩

/-- C4 counterexample: a valid prompt-mode request runs the delegated
algorithm and answers 200, yet the complete database trace of the request
is empty — no ticket row is ever created, contradicting "for every request
(prompt or deferred), the ticket row is created by the request
handler". -/
theorem prompt_request_creates_no_ticket_row :
    k_means_file_trace ⟨true, "prompt"⟩ "t0" "/tmp/src/t0/data.csv" (fun _ => "out")
        3 5 (Except.ok "out") "/out" "260101" 9 = []
    ∧ (k_means_file ⟨true, "prompt"⟩ "t0" "/tmp/src/t0/data.csv" (fun _ => "out")).1
      = KResp.ok 200 (Body.blob "out") :=
  ⟨rfl, rfl⟩

/-- C4 as amended: for a deferred request whose delegated computation
succeeds, the ticket row is inserted by the job body itself (on the
worker, before the delegated computation's outcome is consumed), not by
the request handler; the status then transitions pending→completed through
the single UPDATE of the completion handler, which is the final statement
of the trace — so nothing mutates the row after completion. Prompt
requests create no row at all. -/
theorem deferred_success_trace (t staged : String) (algo : String → String)
    (fs n1 : Nat) (r : String) (outDir dateStr : String) (n2 : Nat) :
    k_means_file_trace ⟨true, "deferred"⟩ t staged algo fs n1 (Except.ok r)
        outDir dateStr n2
      = [DbOp.insert t fs n1,
         DbOp.update t (some (pathJoin (pathJoin outDir (pathJoin dateStr t)) "result.json"))
           (some 1) ((n2 : Int) - (n1 : Int)) Option.none] := by
  simp [k_means_file_trace, k_means_file, runJob, enqueue, executor_callback,
    unpackFive, applyOps, applyOp, fetchRow, newRow, pyOptNat, pyOptStr]

/-- C5 counterexample: an extraction directory holding a data file next to
a single wrapper subdirectory. The claim's rule ("stop at a directory that
contains actual file(s)") resolves to the extraction directory itself, but
the source recurses into the subdirectory whenever one exists, regardless
of sibling files. -/
theorem nested_unwrap_ignores_sibling_files :
    get_extracted_path "/extract"
        (FSNode.dir [("data.csv", FSNode.file),
          ("wrapper", FSNode.dir [("x.csv", FSNode.file)])]) = "/extract/wrapper"
    ∧ get_extracted_path_spec "/extract"
        (FSNode.dir [("data.csv", FSNode.file),
          ("wrapper", FSNode.dir [("x.csv", FSNode.file)])]) = "/extract" := by
  constructor
  · rw [get_extracted_path_step _
      (rfl : firstVisibleDir [("data.csv", FSNode.file),
        ("wrapper", FSNode.dir [("x.csv", FSNode.file)])]
          = some ("wrapper", FSNode.dir [("x.csv", FSNode.file)]))]
    rw [get_extracted_path_stop _
      (rfl : firstVisibleDir [("x.csv", FSNode.file)] = Option.none)]
    rfl
  · exact get_extracted_path_spec_stop _ rfl

/-- C5 as amended: the staging step recurses into the first non-hidden
subdirectory whenever the directory has one — regardless of sibling
entries — and stops at a directory with no non-hidden subdirectory; in
particular a chain archive → dir → dir → files resolves to the innermost
directory containing the files. -/
theorem unwrap_chain_resolves_innermost
    (levels : List (String × List (String × FSNode)))
    (leaf : List (String × FSNode)) (p : String)
    (hvis : ∀ l ∈ levels, startsWithChar '.' l.1 = false)
    (hleaf : firstVisibleDir leaf = Option.none) :
    get_extracted_path p (wrapChain levels leaf)
      = (levels.map Prod.fst).foldl pathJoin p := by
  induction levels generalizing p with
  | nil => exact get_extracted_path_stop p hleaf
  | cons l rest ih =>
      obtain ⟨d, sibs⟩ := l
      have hvd : visibleDirEntry (d, wrapChain rest leaf) = true := by
        simp [visibleDirEntry, hvis (d, sibs) (List.mem_cons_self _ _),
          wrapChain_isDir]
      have hfirst : firstVisibleDir ((d, wrapChain rest leaf) :: sibs)
          = some (d, wrapChain rest leaf) := by
        simp [firstVisibleDir, List.find?_cons, hvd]
      rw [show wrapChain ((d, sibs) :: rest) leaf
            = FSNode.dir ((d, wrapChain rest leaf) :: sibs) from rfl,
        get_extracted_path_step _ hfirst,
        ih (pathJoin p d) (fun l hl => hvis l (List.mem_cons_of_mem _ hl))]
      rfl

/-- C5 witness: a two-level wrapper chain with a stray file next to the
outer wrapper resolves to the innermost directory holding the files. -/
theorem unwrap_chain_resolves_innermost_witness :
    (∀ l ∈ [("outer", [("note.txt", FSNode.file)]),
        ("inner", ([] : List (String × FSNode)))], startsWithChar '.' l.1 = false)
    ∧ firstVisibleDir [("x.csv", FSNode.file)] = Option.none
    ∧ get_extracted_path "/extract"
        (wrapChain [("outer", [("note.txt", FSNode.file)]), ("inner", [])]
          [("x.csv", FSNode.file)]) = "/extract/outer/inner" :=
  ⟨by decide, rfl,
   (unwrap_chain_resolves_innermost
     [("outer", [("note.txt", FSNode.file)]), ("inner", [])]
     [("x.csv", FSNode.file)] "/extract" (by decide) rfl).trans rfl⟩

/-- C6: whenever the completion handler records an outcome (here, the
success tuple produced by `enqueue`), it issues exactly one UPDATE whose
`execution_time` equals the completion clock minus the row's
`requested_time`; under a monotone clock that value is nonnegative. -/
theorem completion_records_elapsed_time (t blob : String) (jt : JobType)
    (fs n1 : Nat) (store : Store) (outDir dateStr : String) (n2 : Nat)
    (row : TicketRow)
    (hrow : fetchRow store t = some row)
    (hclock : row.requested_time ≤ n2) :
    executor_callback (enqueue t fs n1 jt (Except.ok blob)).2 store outDir dateStr n2
      = Except.ok
          { fileWrites := [pathJoin (pathJoin outDir (pathJoin dateStr t)) "result.json"],
            dbOps := [DbOp.update t
              (some (pathJoin (pathJoin outDir (pathJoin dateStr t)) "result.json"))
              (some 1) ((n2 : Int) - (row.requested_time : Int)) Option.none] }
    ∧ 0 ≤ (n2 : Int) - (row.requested_time : Int) := by
  constructor
  · simp [executor_callback, enqueue, unpackFive, hrow, pyOptNat, pyOptStr]
  · omega

/-- C6 witness: a job requested at time 5 completing at time 9 records
execution_time 4. -/
theorem completion_records_elapsed_time_witness :
    fetchRow [("a", newRow 3 5)] "a" = some (newRow 3 5)
    ∧ (newRow 3 5).requested_time ≤ 9
    ∧ executor_callback (enqueue "a" 3 5 JobType.KMEANS (Except.ok "r")).2
        [("a", newRow 3 5)] "/out" "260101" 9
      = Except.ok
          { fileWrites := [pathJoin (pathJoin "/out" (pathJoin "260101" "a")) "result.json"],
            dbOps := [DbOp.update "a"
              (some (pathJoin (pathJoin "/out" (pathJoin "260101" "a")) "result.json"))
              (some 1) (4 : Int) Option.none] } :=
  ⟨rfl, by decide,
   ((completion_records_elapsed_time "a" "r" JobType.KMEANS 3 5
      [("a", newRow 3 5)] "/out" "260101" 9 (newRow 3 5) rfl (by decide)).1).trans rfl⟩

/-- C7: over any store reachable by the system's own statements, the
status view answers 404 for an absent ticket, and for a present ticket a
200 whose body carries the five fields completed, success, requested,
execution_time and comment, with success still NULL while the row is
pending. -/
theorem status_view_contract (ops : List DbOp) (t : String) :
    (fetchRow (applyOps ops []) t = Option.none →
      status (some t) (applyOps ops []) = StatusResp.notFound)
    ∧ (∀ row, fetchRow (applyOps ops []) t = some row →
        status (some t) (applyOps ops [])
          = StatusResp.body (row.status != 0) (row.success.map (fun n => n != 0))
              row.requested_time row.execution_time row.comment
        ∧ (row.status = 0 → row.success = Option.none)) := by
  constructor
  · intro h
    simp [status, h]
  · intro row hrow
    refine ⟨by simp [status, hrow], ?_⟩
    intro hpend
    rcases Option.map_eq_some'.mp hrow with ⟨pr, hfind, hsnd⟩
    have hmem : pr ∈ applyOps ops [] := List.mem_of_find?_eq_some hfind
    have hinv := pendingInv_applyOps ops pendingInv_nil pr hmem
    rw [hsnd] at hinv
    exact hinv hpend

/-- C7 witness: a store holding one freshly inserted (pending) ticket
"a". -/
theorem status_view_contract_witness :
    status (some "a") (applyOps [DbOp.insert "a" 3 5] [])
      = StatusResp.body false Option.none 5 Option.none Option.none
    ∧ status (some "b") (applyOps [DbOp.insert "a" 3 5] []) = StatusResp.notFound :=
  ⟨((status_view_contract [DbOp.insert "a" 3 5] "a").2 (newRow 3 5) rfl).1,
   (status_view_contract [DbOp.insert "a" 3 5] "b").1 rfl⟩

/-- C8: a valid deferred-mode submission to the path handler answers 202
with a body of exactly the keys ticket, endpoint and status, submits
exactly one job, and the outcome does not depend on the delegated
algorithm at all (the handler never runs it); a valid prompt-mode
submission answers 200 with the algorithm's result body. -/
theorem k_means_path_deferred_contract (form : PathForm)
    (uncompressed : String → String) (pathExists : String → Bool)
    (freshTicket : String) (kmeams kmeams2 : String → String)
    (hv : form.valid = true)
    (hx : pathExists (uncompressed form.resource) = true) :
    (form.response = "deferred" →
      k_means_path form uncompressed pathExists freshTicket kmeams
        = (KResp.ok 202 (Body.kv (deferredBody freshTicket)),
           [{ ticket := freshTicket, srcPath := uncompressed form.resource,
              jobType := JobType.KMEANS }])
      ∧ (deferredBody freshTicket).map Prod.fst = ["ticket", "endpoint", "status"]
      ∧ k_means_path form uncompressed pathExists freshTicket kmeams
        = k_means_path form uncompressed pathExists freshTicket kmeams2)
    ∧ (form.response = "prompt" →
      k_means_path form uncompressed pathExists freshTicket kmeams
        = (KResp.ok 200 (Body.blob (kmeams (uncompressed form.resource))), [])) := by
  constructor
  · intro hresp
    refine ⟨?_, rfl, ?_⟩ <;> simp [k_means_path, hv, hx, hresp, deferredBody]
  · intro hresp
    simp [k_means_path, hv, hx, hresp]

/-- C8 witness: a concrete valid deferred submission. -/
theorem k_means_path_deferred_contract_witness :
    (⟨true, "/data/in.csv", "deferred"⟩ : PathForm).valid = true
    ∧ (fun _ => true) ((fun s => s) ((⟨true, "/data/in.csv", "deferred"⟩ : PathForm).resource)) = true
    ∧ k_means_path ⟨true, "/data/in.csv", "deferred"⟩ (fun s => s) (fun _ => true) "t1"
        (fun _ => "r1")
      = (KResp.ok 202 (Body.kv (deferredBody "t1")),
         [{ ticket := "t1", srcPath := "/data/in.csv", jobType := JobType.KMEANS }]) :=
  ⟨rfl, rfl,
   ((k_means_path_deferred_contract ⟨true, "/data/in.csv", "deferred"⟩ (fun s => s)
      (fun _ => true) "t1" (fun _ => "r1") (fun _ => "r2") rfl rfl).1 rfl).1⟩

/-- C9: the health view always answers HTTP 200; its body says "OK"
exactly when both the temp-directory probe and the store probe succeed,
says "FAILED" otherwise, and carries a reason exactly in the FAILED
case. -/
theorem health_check_always_200 (tempCheck dbCheck : Except String Unit) :
    (health_check tempCheck dbCheck).1 = 200
    ∧ ((health_check tempCheck dbCheck).2.status = "OK"
        ↔ tempCheck = Except.ok () ∧ dbCheck = Except.ok ())
    ∧ ((health_check tempCheck dbCheck).2.status = "FAILED"
        ↔ ¬(tempCheck = Except.ok () ∧ dbCheck = Except.ok ()))
    ∧ ((health_check tempCheck dbCheck).2.reason = Option.none
        ↔ (health_check tempCheck dbCheck).2.status = "OK") := by
  cases tempCheck <;> cases dbCheck <;> simp [health_check]

/-- C10: an existing input that is a directory, or a regular file that is
neither a tar nor a zip archive, is returned unchanged by
`uncompress_file`, and nothing is extracted. -/
theorem uncompress_noop_on_plain_inputs (src cwd : String) (tree : FSNode)
    (kind : SrcKind)
    (h : kind = SrcKind.directory ∨ kind = SrcKind.plainFile) :
    uncompress_file src kind cwd tree = ⟨UncompressOutcome.path src, []⟩ := by
  rcases h with h | h <;> subst h <;> rfl

/-- C10 witness: a plain csv file is passed through untouched. -/
theorem uncompress_noop_on_plain_inputs_witness :
    (SrcKind.plainFile = SrcKind.directory ∨ SrcKind.plainFile = SrcKind.plainFile)
    ∧ uncompress_file "/tmp/src/t/data.csv" SrcKind.plainFile "/" FSNode.file
      = ⟨UncompressOutcome.path "/tmp/src/t/data.csv", []⟩ :=
  ⟨Or.inr rfl,
   uncompress_noop_on_plain_inputs "/tmp/src/t/data.csv" "/" FSNode.file
     SrcKind.plainFile (Or.inr rfl)⟩

end ClusteringOutliers
